import Mathlib

/-!
Shallow embedding of the terminal core in `src/cascadia/TerminalCore/Terminal.cpp`
(the viewport/scrollback geometry, the `_WriteBuffer` / `_AdjustCursorPosition`
write path, `UserResize`, the scroll state and the notification surface).

Machine integers (`SHORT`, `int`) are modelled as `Int`; the quantities involved
stay far below 2^15 in every statement below, so no wrap-around arithmetic occurs
in the source on these paths.

The `TextBuffer` collaborator (cell storage, `Write`, `Reflow`) is not part of
this repository snapshot; its contract is modelled from the spec where noted.
-/

/-- A buffer coordinate, mirroring `COORD` (`x` = column, `y` = row). -/
structure Coord where
  x : Int
  y : Int
deriving DecidableEq

/-- The mutable state of `Terminal` that the verified claims touch, together with
instrumentation counters for observable effects:
* `evictions` counts calls to `TextBuffer::IncrementCircularBuffer`,
* `scrollNotifications` counts calls to `_NotifyScrollEvent`,
* `redrawAll` counts calls to `IRenderTarget::TriggerRedrawAll`,
* `bufferId` changes exactly when the owned `TextBuffer` is swapped for a new one.
`wrapForced` is the set of buffer rows whose char row has the wrap-forced flag set;
an `IncrementCircularBuffer` shifts every logical row index down by one. -/
structure Terminal where
  bufWidth : Int
  bufHeight : Int
  cursorX : Int
  cursorY : Int
  viewportTop : Int
  viewportWidth : Int
  viewportHeight : Int
  scrollOffset : Int
  scrollbackLines : Int
  snapOnInput : Bool
  wrapForced : List Int
  evictions : Nat
  scrollNotifications : Nat
  redrawAll : Nat
  bufferId : Nat
deriving DecidableEq

/-- `Terminal::Create`: viewport at top 0 with the given dimensions, buffer of size
`(w, ClampToShortMax(h + scrollbackLines, 1))`. -/
def Terminal.create (w h sb : Int) : Terminal :=
  { bufWidth := w
    bufHeight := min 32767 (max 1 (h + sb))
    cursorX := 0
    cursorY := 0
    viewportTop := 0
    viewportWidth := w
    viewportHeight := h
    scrollOffset := 0
    scrollbackLines := sb
    snapOnInput := true
    wrapForced := []
    evictions := 0
    scrollNotifications := 0
    redrawAll := 0
    bufferId := 0 }

/-- `Terminal::_AdjustCursorPosition`:
* `newRows = proposed.y - bufferHeight + 1`; if positive, `IncrementCircularBuffer`
  is called once per overflowing row and the proposed row is decremented each time
  (so `evictedRows = newRows.toNat` evictions happen and row shrinks by that much);
  each eviction shifts every wrap-forced row index down by one, dropping evicted rows;
* the cursor is set to the adjusted position (no clamping of the column);
* if the cursor row is below the mutable viewport bottom-inclusive row, the viewport
  top becomes `max 0 (cursorY - (height - 1))` when that differs from the old top;
* `TriggerRedrawAll` and `_NotifyScrollEvent` fire iff an eviction happened or the
  viewport top moved. -/
def Terminal.adjustCursorPosition (t : Terminal) (pos : Coord) : Terminal :=
  let newRows := pos.y - t.bufHeight + 1
  let evictedRows : Nat := newRows.toNat
  let cy := pos.y - (evictedRows : Int)
  let newViewTop :=
    if cy > t.viewportTop + t.viewportHeight - 1 then
      max 0 (cy - (t.viewportHeight - 1))
    else
      t.viewportTop
  let notifyCount : Nat :=
    if 0 < evictedRows ∨ newViewTop ≠ t.viewportTop then 1 else 0
  { t with
    cursorX := pos.x
    cursorY := cy
    evictions := t.evictions + evictedRows
    wrapForced :=
      if 0 < evictedRows then
        (t.wrapForced.map (fun r => r - newRows)).filter (fun r => 0 ≤ r)
      else
        t.wrapForced
    viewportTop := newViewTop
    redrawAll := t.redrawAll + notifyCount
    scrollNotifications := t.scrollNotifications + notifyCount }

/-- `GetRowByOffset(row).GetCharRow().SetWrapForced(true)`. -/
def Terminal.markWrapForced (t : Terminal) (row : Int) : Terminal :=
  { t with wrapForced := if row ∈ t.wrapForced then t.wrapForced else row :: t.wrapForced }

/-- `wch >= 0xD800 && wch <= 0xDFFF` in `_WriteBuffer`. -/
def isSurrogate (wch : Nat) : Bool :=
  decide (0xD800 ≤ wch) && decide (wch ≤ 0xDFFF)

/-- Length of `stringView.substr(i, isSurrogate ? 2 : 1)`: two code units for a
surrogate when a second unit is available, otherwise one. -/
def viewLength (c : Nat) (rest : List Nat) : Nat :=
  if isSurrogate c then min 2 (1 + rest.length) else 1

/-- Modelled from the spec: the Cell Buffer `write` contract of section 4.2 for the
one-character view `_WriteBuffer` passes (`TextBuffer::Write` is not part of this
repository snapshot). The view holds one whole character unit of `viewLen` code
units occupying `cells` columns; it is written iff it fits on the cursor row
starting at column `x`, and a whole unit is never split: the result is
`(inputUnitsConsumed, cellsConsumed)`, either `(viewLen, cells)` or `(0, 0)`. -/
def Terminal.bufferWriteOne (width x cells : Int) (viewLen : Nat) : Nat × Int :=
  if x + cells ≤ width then (viewLen, cells) else (0, 0)

/-- One iteration of the `_WriteBuffer` loop at input `c :: rest`, with `cw c` the
column width of the character unit led by code unit `c`: on
`inputDistance > 0` the proposed column advances by `cellDistance` and
`inputDistance` code units are consumed; on zero consumed input the proposed
position becomes `(0, row + 1)`, the row the cursor was on is marked wrap-forced,
and the same input is retried. Both branches end in `_AdjustCursorPosition`. -/
def Terminal.writeStep (cw : Nat → Int) (t : Terminal) (c : Nat) (rest : List Nat) :
    Terminal × List Nat :=
  if 0 < (Terminal.bufferWriteOne t.bufWidth t.cursorX (cw c) (viewLength c rest)).1 then
    (t.adjustCursorPosition
        ⟨t.cursorX + (Terminal.bufferWriteOne t.bufWidth t.cursorX (cw c) (viewLength c rest)).2,
          t.cursorY⟩,
      rest.drop ((Terminal.bufferWriteOne t.bufWidth t.cursorX (cw c) (viewLength c rest)).1 - 1))
  else
    (Terminal.adjustCursorPosition (t.markWrapForced t.cursorY) ⟨0, t.cursorY + 1⟩, c :: rest)

/-- The `_WriteBuffer` loop, fuel-indexed: `none` means the fuel ran out before the
input was exhausted (the C++ loop has no fuel; `writeBuffer` below supplies enough
fuel, and the termination theorem shows it suffices whenever every character fits
on a fresh row). -/
def Terminal.writeBufferAux (cw : Nat → Int) : Nat → Terminal → List Nat → Option Terminal
  | _, t, [] => some t
  | 0, _, _ :: _ => none
  | Nat.succ fuel, t, c :: rest =>
    Terminal.writeBufferAux cw fuel (Terminal.writeStep cw t c rest).1
      (Terminal.writeStep cw t c rest).2

/-- `Terminal::_WriteBuffer` on a run of printable text given as UTF-16 code units. -/
def Terminal.writeBuffer (cw : Nat → Int) (t : Terminal) (input : List Nat) : Option Terminal :=
  Terminal.writeBufferAux cw (2 * input.length) t input

/-- Modelled from the spec: `Terminal::Write` takes the exclusive lock and feeds the
string to the external parser/dispatcher, which for a run of printable text calls
back into `_WriteBuffer` (section 4.3); the parser itself is not part of this
repository snapshot. -/
def Terminal.write (cw : Nat → Int) (t : Terminal) (input : List Nat) : Option Terminal :=
  Terminal.writeBuffer cw t input

/-- `Terminal::TrySnapOnInput`: if `_snapOnInput && _scrollOffset != 0`, set the
offset to 0 under the write lock and fire `_NotifyScrollEvent` once. -/
def Terminal.trySnapOnInput (t : Terminal) : Terminal :=
  if t.snapOnInput ∧ t.scrollOffset ≠ 0 then
    { t with scrollOffset := 0, scrollNotifications := t.scrollNotifications + 1 }
  else
    t

/-- `Terminal::ViewStartIndex` (also the length of the scrollback, per the source
comment). -/
def Terminal.viewStartIndex (t : Terminal) : Int :=
  t.viewportTop

/-- The scrollback length; the source states `ViewStartIndex is also the length of
the scrollback`. -/
def Terminal.scrollbackLength (t : Terminal) : Int :=
  Terminal.viewStartIndex t

/-- `Terminal::_VisibleStartIndex`: `max(0, ViewStartIndex() - _scrollOffset)`. -/
def Terminal.visibleStartIndex (t : Terminal) : Int :=
  max 0 (Terminal.viewStartIndex t - t.scrollOffset)

/-- `Terminal::GetScrollOffset`: returns `_VisibleStartIndex()`. -/
def Terminal.getScrollOffset (t : Terminal) : Int :=
  Terminal.visibleStartIndex t

/-- `Terminal::GetBufferHeight`: returns `_mutableViewport.BottomExclusive()`. -/
def Terminal.getBufferHeight (t : Terminal) : Int :=
  t.viewportTop + t.viewportHeight

/-- The `(top, height, bottom)` triple `Terminal::_NotifyScrollEvent` passes to
`_pfnScrollPositionChanged`: visible viewport top, visible viewport height, and
`GetBufferHeight()`. -/
def Terminal.notifyScrollArgs (t : Terminal) : Int × Int × Int :=
  (Terminal.visibleStartIndex t, t.viewportHeight, Terminal.getBufferHeight t)

/-- Stated from the words of the spec, for comparison with the source: the total
buffer height, `viewport height plus scrollback capacity`. -/
def Terminal.specTotalBufferHeight (t : Terminal) : Int :=
  t.viewportHeight + t.scrollbackLines

/-- Return statuses of `Terminal::UserResize`: `S_OK`, `S_FALSE` (nothing to do)
and a failing `HRESULT`. -/
inductive ResizeStatus
  | ok
  | noop
  | failed
deriving DecidableEq

/-- Modelled from the spec: the outcome of `TextBuffer::Reflow` (not part of this
repository snapshot) — the surviving scrollback depth written back through the
in/out `scrollbackLines` argument, plus the relocated cursor and the wrap flags
of the freshly laid-out buffer. -/
structure ReflowOut where
  scrollback : Int
  cursorX : Int
  cursorY : Int
  wrapForced : List Int
deriving DecidableEq

/-- `Terminal::UserResize`. `allocOk` is whether `make_unique<TextBuffer>` throws
(modelled from the spec, section 4.2 failure modes: allocation failure is caught by
`CATCH_RETURN`); `reflow` is the outcome of `TextBuffer::Reflow` (`none` = a failing
`HRESULT`, stopped by `RETURN_IF_FAILED`). The source: return `S_FALSE` when the
requested size equals the current viewport dimensions; on failure return before any
member is mutated; on success set the mutable viewport to
`FromDimensions({0, scrollbackLines + 1}, viewportSize)`, swap in the new buffer of
size `(viewportSize.X, viewportSize.Y + _scrollbackLines)`, set `_scrollOffset = 0`
and fire `_NotifyScrollEvent`. -/
def Terminal.userResize (t : Terminal) (newW newH : Int) (allocOk : Bool)
    (reflow : Option ReflowOut) : ResizeStatus × Terminal :=
  if newW = t.viewportWidth ∧ newH = t.viewportHeight then
    (ResizeStatus.noop, t)
  else if allocOk = false then
    (ResizeStatus.failed, t)
  else
    match reflow with
    | none => (ResizeStatus.failed, t)
    | some r =>
      (ResizeStatus.ok,
        { t with
          viewportTop := r.scrollback + 1
          viewportWidth := newW
          viewportHeight := newH
          bufWidth := newW
          bufHeight := newH + t.scrollbackLines
          cursorX := r.cursorX
          cursorY := r.cursorY
          wrapForced := r.wrapForced
          bufferId := t.bufferId + 1
          scrollOffset := 0
          scrollNotifications := t.scrollNotifications + 1 })

/-- Events on the shared terminal state, used to record in source order how each
entry point interleaves `_readWriteLock` operations with accesses to the guarded
fields (buffer, viewport, scroll offset, cursor). -/
inductive AccessEvent
  | acquireExclusive
  | releaseExclusive
  | mutateShared
  | readShared
deriving DecidableEq

/-- `Terminal::Write`: `auto lock = LockForWriting();` then the state machine
mutates buffer and cursor; the lock guard releases at scope exit. -/
def writeAccessTrace : List AccessEvent :=
  [AccessEvent.acquireExclusive, AccessEvent.mutateShared, AccessEvent.releaseExclusive]

/-- `Terminal::TrySnapOnInput`: reads `_snapOnInput` and `_scrollOffset`, and when
snapping takes `LockForWriting()`, writes `_scrollOffset` and notifies. -/
def trySnapOnInputAccessTrace (doSnap : Bool) : List AccessEvent :=
  if doSnap then
    [AccessEvent.readShared, AccessEvent.acquireExclusive, AccessEvent.mutateShared,
      AccessEvent.releaseExclusive]
  else
    [AccessEvent.readShared]

/-- `Terminal::UserResize` on the successful path, in source order: reads of the old
viewport dimensions and cursor, the reflow into the detached new buffer, then the
mutations of `_mutableViewport`, `_buffer` (the swap) and `_scrollOffset`, then the
notification read. No `LockForWriting()` call appears anywhere in the function. -/
def userResizeSuccessAccessTrace : List AccessEvent :=
  [AccessEvent.readShared, AccessEvent.readShared, AccessEvent.mutateShared,
    AccessEvent.mutateShared, AccessEvent.mutateShared, AccessEvent.readShared]

/-- Depth-tracking check that every mutation of shared state happens while the
exclusive lock is held. -/
def mutationsLockedFrom : Nat → List AccessEvent → Bool
  | _, [] => true
  | d, AccessEvent.acquireExclusive :: rest => mutationsLockedFrom (d + 1) rest
  | d, AccessEvent.releaseExclusive :: rest => mutationsLockedFrom (d - 1) rest
  | d, AccessEvent.mutateShared :: rest => decide (0 < d) && mutationsLockedFrom d rest
  | d, AccessEvent.readShared :: rest => mutationsLockedFrom d rest

/-- Whether a trace only mutates the shared terminal state under the exclusive
writer lock. -/
def mutationsUnderExclusiveLock (tr : List AccessEvent) : Bool :=
  mutationsLockedFrom 0 tr

/-- A one-column, one-row terminal with no scrollback. -/
def terminalA : Terminal :=
  Terminal.create 1 1 0

/-- An 80x24 terminal with 100 scrollback rows, scrolled back by 3. -/
def terminalScroll : Terminal :=
  { Terminal.create 80 24 100 with scrollOffset := 3 }

/-- A freshly created 80x24 terminal with 5 scrollback rows. -/
def terminalC : Terminal :=
  Terminal.create 80 24 5

/-- An 80x24 terminal whose mutable viewport has moved down to top 5 (five rows of
scrollback) and that sits at the live tail (offset 0). -/
def terminalD : Terminal :=
  { Terminal.create 80 24 100 with viewportTop := 5 }

/-- The contract claimed for `_AdjustCursorPosition`: one eviction per overflowing
row with the row decremented per eviction, the cursor set to the resulting
position, the viewport top moved down exactly enough to re-include the cursor row
when it fell below the bottom, and redraw-all plus a scroll notification issued
iff an eviction occurred or the viewport moved. -/
def AdjustCursorSpec (t : Terminal) (pos : Coord) : Prop :=
  (t.adjustCursorPosition pos).evictions = t.evictions + (pos.y - t.bufHeight + 1).toNat ∧
  (t.adjustCursorPosition pos).cursorX = pos.x ∧
  (t.adjustCursorPosition pos).cursorY = pos.y - ((pos.y - t.bufHeight + 1).toNat : Int) ∧
  ((t.adjustCursorPosition pos).cursorY > t.viewportTop + t.viewportHeight - 1 →
    (t.adjustCursorPosition pos).viewportTop + t.viewportHeight - 1 =
        (t.adjustCursorPosition pos).cursorY ∧
      t.viewportTop < (t.adjustCursorPosition pos).viewportTop) ∧
  ((t.adjustCursorPosition pos).cursorY ≤ t.viewportTop + t.viewportHeight - 1 →
    (t.adjustCursorPosition pos).viewportTop = t.viewportTop) ∧
  ((t.adjustCursorPosition pos).scrollNotifications = t.scrollNotifications + 1 ↔
    ((t.adjustCursorPosition pos).evictions ≠ t.evictions ∨
      (t.adjustCursorPosition pos).viewportTop ≠ t.viewportTop)) ∧
  ((t.adjustCursorPosition pos).redrawAll = t.redrawAll + 1 ↔
    ((t.adjustCursorPosition pos).evictions ≠ t.evictions ∨
      (t.adjustCursorPosition pos).viewportTop ≠ t.viewportTop)) ∧
  ((t.adjustCursorPosition pos).scrollNotifications = t.scrollNotifications ↔
    ¬((t.adjustCursorPosition pos).evictions ≠ t.evictions ∨
      (t.adjustCursorPosition pos).viewportTop ≠ t.viewportTop))

/-- Cursor bounds as the write path actually maintains them: column in
`[0, width]`, row in `[0, bufferHeight)`. -/
def CursorInBounds (res : Terminal) : Prop :=
  0 ≤ res.cursorX ∧ res.cursorX ≤ res.bufWidth ∧ 0 ≤ res.cursorY ∧ res.cursorY < res.bufHeight

/-- The postcondition claimed for a successful `UserResize` to a different size. -/
def ResizeSuccessSpec (t : Terminal) (newW newH : Int) (r : ReflowOut) : Prop :=
  (Terminal.userResize t newW newH true (some r)).1 = ResizeStatus.ok ∧
  (Terminal.userResize t newW newH true (some r)).2.viewportWidth = newW ∧
  (Terminal.userResize t newW newH true (some r)).2.viewportHeight = newH ∧
  (Terminal.userResize t newW newH true (some r)).2.viewportTop = r.scrollback + 1 ∧
  (Terminal.userResize t newW newH true (some r)).2.bufferId = t.bufferId + 1 ∧
  (Terminal.userResize t newW newH true (some r)).2.bufWidth = newW ∧
  (Terminal.userResize t newW newH true (some r)).2.bufHeight = newH + t.scrollbackLines ∧
  (Terminal.userResize t newW newH true (some r)).2.scrollOffset = 0 ∧
  (Terminal.userResize t newW newH true (some r)).2.scrollNotifications =
    t.scrollNotifications + 1

/-- The no-op and failure behaviour claimed for `UserResize`: `S_FALSE` exactly on
an unchanged size, and every failing path leaves the state untouched. -/
def ResizeNoopFailureSpec (t : Terminal) (newW newH : Int) (allocOk : Bool)
    (reflow : Option ReflowOut) : Prop :=
  ((Terminal.userResize t newW newH allocOk reflow).1 = ResizeStatus.noop ↔
    (newW = t.viewportWidth ∧ newH = t.viewportHeight)) ∧
  ((newW = t.viewportWidth ∧ newH = t.viewportHeight) →
    (Terminal.userResize t newW newH allocOk reflow).2 = t) ∧
  (¬(newW = t.viewportWidth ∧ newH = t.viewportHeight) →
    (allocOk = false ∨ reflow = none) →
    (Terminal.userResize t newW newH allocOk reflow).1 = ResizeStatus.failed ∧
    (Terminal.userResize t newW newH allocOk reflow).2 = t)

lemma adjust_cursorX (t : Terminal) (pos : Coord) :
    (t.adjustCursorPosition pos).cursorX = pos.x := rfl

lemma adjust_cursorY (t : Terminal) (pos : Coord) :
    (t.adjustCursorPosition pos).cursorY = pos.y - ((pos.y - t.bufHeight + 1).toNat : Int) := rfl

lemma adjust_evictions (t : Terminal) (pos : Coord) :
    (t.adjustCursorPosition pos).evictions = t.evictions + (pos.y - t.bufHeight + 1).toNat := rfl

lemma adjust_viewportTop (t : Terminal) (pos : Coord) :
    (t.adjustCursorPosition pos).viewportTop =
      (if pos.y - ((pos.y - t.bufHeight + 1).toNat : Int) > t.viewportTop + t.viewportHeight - 1
        then max 0 (pos.y - ((pos.y - t.bufHeight + 1).toNat : Int) - (t.viewportHeight - 1))
        else t.viewportTop) := rfl

lemma adjust_scrollNotifications (t : Terminal) (pos : Coord) :
    (t.adjustCursorPosition pos).scrollNotifications =
      t.scrollNotifications +
        (if 0 < (pos.y - t.bufHeight + 1).toNat ∨
            (t.adjustCursorPosition pos).viewportTop ≠ t.viewportTop
          then 1 else 0) := rfl

lemma adjust_redrawAll (t : Terminal) (pos : Coord) :
    (t.adjustCursorPosition pos).redrawAll =
      t.redrawAll +
        (if 0 < (pos.y - t.bufHeight + 1).toNat ∨
            (t.adjustCursorPosition pos).viewportTop ≠ t.viewportTop
          then 1 else 0) := rfl

lemma adjust_bufWidth (t : Terminal) (pos : Coord) :
    (t.adjustCursorPosition pos).bufWidth = t.bufWidth := rfl

lemma adjust_bufHeight (t : Terminal) (pos : Coord) :
    (t.adjustCursorPosition pos).bufHeight = t.bufHeight := rfl

lemma adjust_scrollOffset (t : Terminal) (pos : Coord) :
    (t.adjustCursorPosition pos).scrollOffset = t.scrollOffset := rfl

lemma mark_bufWidth (t : Terminal) (row : Int) :
    (t.markWrapForced row).bufWidth = t.bufWidth := rfl

lemma mark_bufHeight (t : Terminal) (row : Int) :
    (t.markWrapForced row).bufHeight = t.bufHeight := rfl

lemma mark_cursorX (t : Terminal) (row : Int) :
    (t.markWrapForced row).cursorX = t.cursorX := rfl

lemma mark_cursorY (t : Terminal) (row : Int) :
    (t.markWrapForced row).cursorY = t.cursorY := rfl

lemma mark_scrollOffset (t : Terminal) (row : Int) :
    (t.markWrapForced row).scrollOffset = t.scrollOffset := rfl

lemma viewLength_pos (c : Nat) (rest : List Nat) : 0 < viewLength c rest := by
  unfold viewLength
  split <;> omega

/-- On a fitting character unit, `writeStep` consumes the whole view and advances
the proposed column by the cell width. -/
lemma writeStep_pos (cw : Nat → Int) (t : Terminal) (c : Nat) (rest : List Nat)
    (h : t.cursorX + cw c ≤ t.bufWidth) :
    Terminal.writeStep cw t c rest =
      (t.adjustCursorPosition ⟨t.cursorX + cw c, t.cursorY⟩,
        rest.drop (viewLength c rest - 1)) := by
  have hb : Terminal.bufferWriteOne t.bufWidth t.cursorX (cw c) (viewLength c rest) =
      (viewLength c rest, cw c) := by
    unfold Terminal.bufferWriteOne
    rw [if_pos h]
  unfold Terminal.writeStep
  rw [hb]
  rw [if_pos (viewLength_pos c rest)]

/-- On zero consumed input, `writeStep` marks the current row wrap-forced, proposes
column 0 on the next row, and leaves the input untouched. -/
lemma writeStep_zero (cw : Nat → Int) (t : Terminal) (c : Nat) (rest : List Nat)
    (h : ¬ t.cursorX + cw c ≤ t.bufWidth) :
    Terminal.writeStep cw t c rest =
      (Terminal.adjustCursorPosition (t.markWrapForced t.cursorY) ⟨0, t.cursorY + 1⟩,
        c :: rest) := by
  have hb : Terminal.bufferWriteOne t.bufWidth t.cursorX (cw c) (viewLength c rest) =
      (0, 0) := by
    unfold Terminal.bufferWriteOne
    rw [if_neg h]
  unfold Terminal.writeStep
  rw [hb]
  simp

lemma writeStep_bufWidth (cw : Nat → Int) (t : Terminal) (c : Nat) (rest : List Nat) :
    (Terminal.writeStep cw t c rest).1.bufWidth = t.bufWidth := by
  by_cases h : t.cursorX + cw c ≤ t.bufWidth
  · rw [writeStep_pos cw t c rest h]
    rfl
  · rw [writeStep_zero cw t c rest h]
    rfl

lemma writeStep_bufHeight (cw : Nat → Int) (t : Terminal) (c : Nat) (rest : List Nat) :
    (Terminal.writeStep cw t c rest).1.bufHeight = t.bufHeight := by
  by_cases h : t.cursorX + cw c ≤ t.bufWidth
  · rw [writeStep_pos cw t c rest h]
    rfl
  · rw [writeStep_zero cw t c rest h]
    rfl

lemma writeStep_scrollOffset (cw : Nat → Int) (t : Terminal) (c : Nat) (rest : List Nat) :
    (Terminal.writeStep cw t c rest).1.scrollOffset = t.scrollOffset := by
  by_cases h : t.cursorX + cw c ≤ t.bufWidth
  · rw [writeStep_pos cw t c rest h]
    rfl
  · rw [writeStep_zero cw t c rest h]
    rfl

/-- Every code unit remaining after a `writeStep` came from the input it was given. -/
lemma writeStep_snd_subset (cw : Nat → Int) (t : Terminal) (c : Nat) (rest : List Nat) :
    ∀ d ∈ (Terminal.writeStep cw t c rest).2, d ∈ c :: rest := by
  by_cases h : t.cursorX + cw c ≤ t.bufWidth
  · rw [writeStep_pos cw t c rest h]
    intro d hd
    exact List.mem_cons_of_mem _ (List.mem_of_mem_drop hd)
  · rw [writeStep_zero cw t c rest h]
    intro d hd
    exact hd

lemma writeBufferAux_nil (cw : Nat → Int) (fuel : Nat) (t : Terminal) :
    Terminal.writeBufferAux cw fuel t [] = some t := by
  cases fuel <;> rfl

lemma writeBufferAux_succ (cw : Nat → Int) (fuel : Nat) (t : Terminal) (c : Nat)
    (rest : List Nat) :
    Terminal.writeBufferAux cw (fuel + 1) t (c :: rest) =
      Terminal.writeBufferAux cw fuel (Terminal.writeStep cw t c rest).1
        (Terminal.writeStep cw t c rest).2 := rfl

/-- More fuel never changes a run that already finished. -/
lemma writeBufferAux_mono (cw : Nat → Int) (f₁ : Nat) :
    ∀ f₂ t input res, f₁ ≤ f₂ →
      Terminal.writeBufferAux cw f₁ t input = some res →
      Terminal.writeBufferAux cw f₂ t input = some res := by
  induction f₁ with
  | zero =>
    intro f₂ t input res _ h
    cases input with
    | nil => simpa [writeBufferAux_nil] using h
    | cons c rest => simp [Terminal.writeBufferAux] at h
  | succ f ih =>
    intro f₂ t input res hle h
    cases input with
    | nil => simpa [writeBufferAux_nil] using h
    | cons c rest =>
      obtain ⟨k, rfl⟩ : ∃ k, f₂ = k + 1 := ⟨f₂ - 1, by omega⟩
      rw [writeBufferAux_succ] at h ⊢
      exact ih k _ _ res (by omega) h

/-- Unfolding one loop iteration through an explicit step outcome. -/
lemma writeBufferAux_step (cw : Nat → Int) (fuel : Nat) (t t1 : Terminal) (c : Nat)
    (rest rest1 : List Nat) (hstep : Terminal.writeStep cw t c rest = (t1, rest1)) :
    Terminal.writeBufferAux cw (fuel + 1) t (c :: rest) =
      Terminal.writeBufferAux cw fuel t1 rest1 := by
  rw [writeBufferAux_succ, hstep]

/-- Whenever every character unit of the input fits on a fresh row (positive cell
width at most the buffer width), the `_WriteBuffer` loop finishes within
`2 * length` row-write attempts: the zero-consumed retry is always followed by a
successful write at column 0. -/
lemma writeBufferAux_total (cw : Nat → Int) :
    ∀ (n : Nat) (t : Terminal) (input : List Nat),
      input.length ≤ n →
      (∀ c ∈ input, 0 < cw c ∧ cw c ≤ t.bufWidth) →
      ∃ res, Terminal.writeBufferAux cw (2 * input.length) t input = some res := by
  intro n
  induction n with
  | zero =>
    intro t input hlen _
    cases input with
    | nil => exact ⟨t, writeBufferAux_nil cw _ t⟩
    | cons c rest => simp at hlen
  | succ n ih =>
    intro t input hlen hfit
    cases input with
    | nil => exact ⟨t, writeBufferAux_nil cw _ t⟩
    | cons c rest =>
      obtain ⟨hcw, hcb⟩ := hfit c (List.mem_cons_self c rest)
      have hrn : rest.length ≤ n := by
        simpa using hlen
      by_cases hc : t.cursorX + cw c ≤ t.bufWidth
      · obtain ⟨res, hres⟩ :=
          ih (t.adjustCursorPosition ⟨t.cursorX + cw c, t.cursorY⟩)
            (rest.drop (viewLength c rest - 1))
            (by simp [List.length_drop]; omega)
            (fun d hd => by
              rw [adjust_bufWidth]
              exact hfit d (List.mem_cons_of_mem _ (List.mem_of_mem_drop hd)))
        refine ⟨res, ?_⟩
        have h2 : 2 * (c :: rest).length = 2 * rest.length + 1 + 1 := by
          simp [List.length_cons]
          ring
        rw [h2,
          writeBufferAux_step cw (2 * rest.length + 1) t _ c rest _
            (writeStep_pos cw t c rest hc)]
        exact writeBufferAux_mono cw (2 * (rest.drop (viewLength c rest - 1)).length)
          (2 * rest.length + 1) _ _ res (by simp [List.length_drop]; omega) hres
      · have ht1x : (Terminal.adjustCursorPosition (t.markWrapForced t.cursorY)
            ⟨0, t.cursorY + 1⟩).cursorX = 0 := rfl
        have ht1w : (Terminal.adjustCursorPosition (t.markWrapForced t.cursorY)
            ⟨0, t.cursorY + 1⟩).bufWidth = t.bufWidth := rfl
        have hc2 : (Terminal.adjustCursorPosition (t.markWrapForced t.cursorY)
              ⟨0, t.cursorY + 1⟩).cursorX + cw c ≤
            (Terminal.adjustCursorPosition (t.markWrapForced t.cursorY)
              ⟨0, t.cursorY + 1⟩).bufWidth := by
          rw [ht1x, ht1w]
          omega
        obtain ⟨res, hres⟩ :=
          ih ((Terminal.adjustCursorPosition (t.markWrapForced t.cursorY)
                ⟨0, t.cursorY + 1⟩).adjustCursorPosition
              ⟨(Terminal.adjustCursorPosition (t.markWrapForced t.cursorY)
                  ⟨0, t.cursorY + 1⟩).cursorX + cw c,
                (Terminal.adjustCursorPosition (t.markWrapForced t.cursorY)
                  ⟨0, t.cursorY + 1⟩).cursorY⟩)
            (rest.drop (viewLength c rest - 1))
            (by simp [List.length_drop]; omega)
            (fun d hd => by
              rw [adjust_bufWidth, ht1w]
              exact hfit d (List.mem_cons_of_mem _ (List.mem_of_mem_drop hd)))
        refine ⟨res, ?_⟩
        have h2 : 2 * (c :: rest).length = 2 * rest.length + 1 + 1 := by
          simp [List.length_cons]
          ring
        rw [h2,
          writeBufferAux_step cw (2 * rest.length + 1) t _ c rest _
            (writeStep_zero cw t c rest hc)]
        obtain ⟨k, hk⟩ : ∃ k, 2 * rest.length + 1 = k + 1 := ⟨2 * rest.length, rfl⟩
        rw [hk,
          writeBufferAux_step cw k _ _ c rest _
            (writeStep_pos cw (Terminal.adjustCursorPosition (t.markWrapForced t.cursorY)
              ⟨0, t.cursorY + 1⟩) c rest hc2)]
        exact writeBufferAux_mono cw (2 * (rest.drop (viewLength c rest - 1)).length)
          k _ _ res (by simp [List.length_drop]; omega) hres

/-- `_AdjustCursorPosition` clamps the row into the buffer but copies the column
verbatim. -/
lemma adjust_cursor_row_bounds (t : Terminal) (pos : Coord) (hy : 0 ≤ pos.y)
    (hH : 1 ≤ t.bufHeight) :
    0 ≤ (t.adjustCursorPosition pos).cursorY ∧
      (t.adjustCursorPosition pos).cursorY < t.bufHeight := by
  rw [adjust_cursorY]
  omega

/-- The cursor invariant actually maintained by the write path: the column stays in
`[0, width]` (the column equals `width` right after a write fills the row) and the
row stays in `[0, bufferHeight)`; buffer dimensions never change. -/
lemma writeBufferAux_inv (cw : Nat → Int) (fuel : Nat) :
    ∀ t input res,
      (∀ c ∈ input, 0 < cw c ∧ cw c ≤ t.bufWidth) →
      0 ≤ t.cursorX → t.cursorX ≤ t.bufWidth →
      0 ≤ t.cursorY → t.cursorY < t.bufHeight → 1 ≤ t.bufHeight →
      Terminal.writeBufferAux cw fuel t input = some res →
      res.bufWidth = t.bufWidth ∧ res.bufHeight = t.bufHeight ∧
        0 ≤ res.cursorX ∧ res.cursorX ≤ res.bufWidth ∧
        0 ≤ res.cursorY ∧ res.cursorY < res.bufHeight := by
  induction fuel with
  | zero =>
    intro t input res hfit hx1 hx2 hy1 hy2 hH h
    cases input with
    | nil =>
      rw [writeBufferAux_nil] at h
      cases h
      exact ⟨rfl, rfl, hx1, hx2, hy1, hy2⟩
    | cons c rest => simp [Terminal.writeBufferAux] at h
  | succ f ih =>
    intro t input res hfit hx1 hx2 hy1 hy2 hH h
    cases input with
    | nil =>
      rw [writeBufferAux_nil] at h
      cases h
      exact ⟨rfl, rfl, hx1, hx2, hy1, hy2⟩
    | cons c rest =>
      obtain ⟨hcw, hcb⟩ := hfit c (List.mem_cons_self c rest)
      by_cases hc : t.cursorX + cw c ≤ t.bufWidth
      · rw [writeBufferAux_step cw f t _ c rest _ (writeStep_pos cw t c rest hc)] at h
        have hrow := adjust_cursor_row_bounds t ⟨t.cursorX + cw c, t.cursorY⟩ hy1 hH
        have hmain := ih (t.adjustCursorPosition ⟨t.cursorX + cw c, t.cursorY⟩)
          (rest.drop (viewLength c rest - 1)) res
          (fun d hd => by
            rw [adjust_bufWidth]
            exact hfit d (List.mem_cons_of_mem _ (List.mem_of_mem_drop hd)))
          (by show (0 : Int) ≤ t.cursorX + cw c; omega)
          (by show t.cursorX + cw c ≤ t.bufWidth; exact hc)
          hrow.1
          (by rw [adjust_bufHeight]; exact hrow.2)
          (by rw [adjust_bufHeight]; exact hH)
          h
        rwa [adjust_bufWidth, adjust_bufHeight] at hmain
      · rw [writeBufferAux_step cw f t _ c rest _ (writeStep_zero cw t c rest hc)] at h
        have hrow := adjust_cursor_row_bounds (t.markWrapForced t.cursorY)
          ⟨0, t.cursorY + 1⟩ (by show (0 : Int) ≤ t.cursorY + 1; omega)
          (by rw [mark_bufHeight]; exact hH)
        have hmain := ih (Terminal.adjustCursorPosition (t.markWrapForced t.cursorY)
            ⟨0, t.cursorY + 1⟩) (c :: rest) res
          (fun d hd => by
            rw [adjust_bufWidth, mark_bufWidth]
            exact hfit d hd)
          (by show (0 : Int) ≤ 0; omega)
          (by show (0 : Int) ≤ t.bufWidth; omega)
          hrow.1
          (by rw [adjust_bufHeight]; exact hrow.2)
          (by rw [adjust_bufHeight, mark_bufHeight]; exact hH)
          h
        rwa [adjust_bufWidth, adjust_bufHeight, mark_bufWidth, mark_bufHeight] at hmain

/-- The write path never touches the scroll offset. -/
lemma writeBufferAux_scrollOffset (cw : Nat → Int) (fuel : Nat) :
    ∀ t input res,
      Terminal.writeBufferAux cw fuel t input = some res →
      res.scrollOffset = t.scrollOffset := by
  induction fuel with
  | zero =>
    intro t input res h
    cases input with
    | nil =>
      rw [writeBufferAux_nil] at h
      cases h
      rfl
    | cons c rest => simp [Terminal.writeBufferAux] at h
  | succ f ih =>
    intro t input res h
    cases input with
    | nil =>
      rw [writeBufferAux_nil] at h
      cases h
      rfl
    | cons c rest =>
      rw [writeBufferAux_succ] at h
      rw [ih _ _ _ h, writeStep_scrollOffset]

/-- Claim C1: in `_WriteBuffer`, when the Cell Buffer write consumes zero input
units, the proposed column becomes 0, the proposed row increments by 1, the row
the cursor was on is marked wrap-forced and the same input unit is retried; and
for every finite input whose character units fit on a fresh row the retry loop
terminates, making net forward progress in the input-unit index. -/
theorem writeBuffer_wrap_retry_terminates (cw : Nat → Int) (t : Terminal)
    (input : List Nat) (hfit : ∀ c ∈ input, 0 < cw c ∧ cw c ≤ t.bufWidth) :
    (∃ res, Terminal.writeBuffer cw t input = some res) ∧
    ∀ c rest, t.bufWidth < t.cursorX + cw c →
      Terminal.writeStep cw t c rest =
        (Terminal.adjustCursorPosition (t.markWrapForced t.cursorY) ⟨0, t.cursorY + 1⟩,
          c :: rest) := by
  constructor
  · exact writeBufferAux_total cw input.length t input le_rfl hfit
  · intro c rest hover
    exact writeStep_zero cw t c rest (by omega)

/-- Claim C1, witness at a concrete input. -/
theorem writeBuffer_wrap_retry_terminates_witness :
    (∃ res, Terminal.writeBuffer (fun _ => 1) terminalA [97] = some res) ∧
    ∀ c rest, terminalA.bufWidth < terminalA.cursorX + (fun _ => (1 : Int)) c →
      Terminal.writeStep (fun _ => 1) terminalA c rest =
        (Terminal.adjustCursorPosition (terminalA.markWrapForced terminalA.cursorY)
          ⟨0, terminalA.cursorY + 1⟩, c :: rest) :=
  writeBuffer_wrap_retry_terminates (fun _ => 1) terminalA [97] (by decide)

/-- Claim C2: `_AdjustCursorPosition` meets the claimed eviction / cursor /
viewport-follow / notification contract for every proposed position, given the
viewport top is non-negative. -/
theorem adjustCursorPosition_meets_contract (t : Terminal) (pos : Coord)
    (htop : 0 ≤ t.viewportTop) : AdjustCursorSpec t pos := by
  have hvt := adjust_viewportTop t pos
  have hsn := adjust_scrollNotifications t pos
  have hrd := adjust_redrawAll t pos
  have hev := adjust_evictions t pos
  have hcy := adjust_cursorY t pos
  refine ⟨hev, adjust_cursorX t pos, hcy, ?_, ?_, ?_, ?_, ?_⟩
  · intro hgt
    rw [hcy] at hgt
    rw [hvt, hcy, if_pos hgt]
    omega
  · intro hle
    rw [hcy] at hle
    rw [hvt, if_neg (by omega)]
  · rw [hsn, hev]
    by_cases hC : 0 < (pos.y - t.bufHeight + 1).toNat ∨
        (t.adjustCursorPosition pos).viewportTop ≠ t.viewportTop
    · rw [if_pos hC]
      omega
    · rw [if_neg hC]
      omega
  · rw [hrd, hev]
    by_cases hC : 0 < (pos.y - t.bufHeight + 1).toNat ∨
        (t.adjustCursorPosition pos).viewportTop ≠ t.viewportTop
    · rw [if_pos hC]
      omega
    · rw [if_neg hC]
      omega
  · rw [hsn, hev]
    by_cases hC : 0 < (pos.y - t.bufHeight + 1).toNat ∨
        (t.adjustCursorPosition pos).viewportTop ≠ t.viewportTop
    · rw [if_pos hC]
      omega
    · rw [if_neg hC]
      omega

/-- Claim C2, witness: a proposed position two rows past the last buffer row of a
fresh 80x24x5 terminal. -/
theorem adjustCursorPosition_meets_contract_witness :
    AdjustCursorSpec terminalC ⟨0, 30⟩ :=
  adjustCursorPosition_meets_contract terminalC ⟨0, 30⟩ (by decide)

/-- Claim C3, counterexample: one `bufferWrite` call on a 1x1 terminal leaves the
cursor column equal to the buffer width, outside `[0, width)`, after
`_AdjustCursorPosition` has returned. -/
theorem writeBuffer_cursor_column_hits_width :
    Terminal.writeBuffer (fun _ => 1) terminalA [97] =
      some { terminalA with cursorX := 1 } ∧
    ¬ (({ terminalA with cursorX := 1 } : Terminal).cursorX < terminalA.bufWidth) := by
  decide

/-- Claim C3 as amended: across every sequence of `bufferWrite` calls the cursor
column stays in `[0, width]` (it can equal `width` right after a row-filling
write) and the cursor row stays in `[0, bufferHeight)`, buffer dimensions
unchanged. -/
theorem writeBuffer_cursor_bounds (cw : Nat → Int) (t res : Terminal)
    (input : List Nat) (hfit : ∀ c ∈ input, 0 < cw c ∧ cw c ≤ t.bufWidth)
    (hx1 : 0 ≤ t.cursorX) (hx2 : t.cursorX ≤ t.bufWidth)
    (hy1 : 0 ≤ t.cursorY) (hy2 : t.cursorY < t.bufHeight) (hH : 1 ≤ t.bufHeight)
    (hrun : Terminal.writeBuffer cw t input = some res) :
    res.bufWidth = t.bufWidth ∧ res.bufHeight = t.bufHeight ∧ CursorInBounds res := by
  have h := writeBufferAux_inv cw (2 * input.length) t input res hfit hx1 hx2 hy1 hy2 hH hrun
  exact ⟨h.1, h.2.1, h.2.2.1, h.2.2.2.1, h.2.2.2.2.1, h.2.2.2.2.2⟩

/-- Claim C3 as amended, witness at a concrete run. -/
theorem writeBuffer_cursor_bounds_witness :
    ({ terminalA with cursorX := 1 } : Terminal).bufWidth = terminalA.bufWidth ∧
    ({ terminalA with cursorX := 1 } : Terminal).bufHeight = terminalA.bufHeight ∧
    CursorInBounds { terminalA with cursorX := 1 } :=
  writeBuffer_cursor_bounds (fun _ => 1) terminalA { terminalA with cursorX := 1 }
    [97] (by decide) (by decide) (by decide) (by decide) (by decide) (by decide)
    (by decide)

/-- Claim C4: on a surrogate pair the `_WriteBuffer` iteration advances the input
index by exactly 2 or by 0, never 1, so the pair is never split across two Cell
Buffer writes. -/
theorem writeStep_surrogate_atomic (cw : Nat → Int) (t : Terminal) (c d : Nat)
    (rest : List Nat) (hs : isSurrogate c = true) :
    (c :: d :: rest).length - ((Terminal.writeStep cw t c (d :: rest)).2).length = 2 ∨
    (c :: d :: rest).length - ((Terminal.writeStep cw t c (d :: rest)).2).length = 0 := by
  have hv : viewLength c (d :: rest) = 2 := by
    unfold viewLength
    rw [if_pos hs]
    simp only [List.length_cons]
    omega
  by_cases hc : t.cursorX + cw c ≤ t.bufWidth
  · left
    rw [writeStep_pos cw t c (d :: rest) hc, hv]
    simp only [List.length_cons, List.drop_succ_cons, List.drop_zero]
    omega
  · right
    rw [writeStep_zero cw t c (d :: rest) hc]
    simp

/-- Claim C4, witness: the surrogate pair U+D83D U+DE00 on the 1x1 terminal. -/
theorem writeStep_surrogate_atomic_witness :
    (55357 :: 56832 :: []).length -
        ((Terminal.writeStep (fun _ => 2) terminalA 55357 (56832 :: [])).2).length = 2 ∨
    (55357 :: 56832 :: []).length -
        ((Terminal.writeStep (fun _ => 2) terminalA 55357 (56832 :: [])).2).length = 0 :=
  writeStep_surrogate_atomic (fun _ => 2) terminalA 55357 56832 [] (by decide)

/-- Claim C5, counterexample: a `Write` call on a snap-enabled terminal scrolled
back by 3 leaves the scroll offset at 3 and fires no scroll notification — the
snap lives in `TrySnapOnInput`, which `Write` never calls. -/
theorem write_does_not_snap :
    terminalScroll.snapOnInput = true ∧
    terminalScroll.scrollOffset = 3 ∧
    (Terminal.write (fun _ => 1) terminalScroll [97]).map Terminal.scrollOffset = some 3 ∧
    (Terminal.write (fun _ => 1) terminalScroll [97]).map Terminal.scrollNotifications =
      some terminalScroll.scrollNotifications := by
  decide

/-- Claim C5 as amended: the snap-to-tail happens in `TrySnapOnInput` (reached from
`SendKeyEvent`), not in `Write`: whenever it runs with snap-on-input enabled and a
nonzero offset the offset becomes 0 with exactly one scroll notification, while
`Write` itself leaves the scroll offset unchanged. -/
theorem trySnapOnInput_snaps (cw : Nat → Int) (t res : Terminal) (input : List Nat)
    (hsnap : t.snapOnInput = true) (hoff : t.scrollOffset ≠ 0)
    (hrun : Terminal.write cw t input = some res) :
    (t.trySnapOnInput).scrollOffset = 0 ∧
    (t.trySnapOnInput).scrollNotifications = t.scrollNotifications + 1 ∧
    res.scrollOffset = t.scrollOffset := by
  refine ⟨?_, ?_, writeBufferAux_scrollOffset cw (2 * input.length) t input res hrun⟩
  · unfold Terminal.trySnapOnInput
    rw [if_pos ⟨hsnap, hoff⟩]
  · unfold Terminal.trySnapOnInput
    rw [if_pos ⟨hsnap, hoff⟩]

/-- Claim C5 as amended, witness at a concrete run. -/
theorem trySnapOnInput_snaps_witness :
    (terminalScroll.trySnapOnInput).scrollOffset = 0 ∧
    (terminalScroll.trySnapOnInput).scrollNotifications =
      terminalScroll.scrollNotifications + 1 ∧
    ({ terminalScroll with cursorX := 1 } : Terminal).scrollOffset =
      terminalScroll.scrollOffset :=
  trySnapOnInput_snaps (fun _ => 1) terminalScroll { terminalScroll with cursorX := 1 }
    [97] (by decide) (by decide) (by decide)

/-- Claim C6: after a successful resize to a different size, the mutable viewport
has the requested dimensions with top equal to the reflow-returned scrollback
depth plus 1, the buffer has been replaced by the new one of the new geometry,
the scroll offset is 0, and scroll listeners were notified. -/
theorem userResize_success (t : Terminal) (newW newH : Int) (r : ReflowOut)
    (hdiff : ¬(newW = t.viewportWidth ∧ newH = t.viewportHeight)) :
    ResizeSuccessSpec t newW newH r := by
  unfold ResizeSuccessSpec Terminal.userResize
  rw [if_neg hdiff]
  simp

/-- Claim C6, witness: resizing the 1x1 terminal to 2x3 with a reflow that reports
scrollback depth 0. -/
theorem userResize_success_witness :
    ResizeSuccessSpec terminalA 2 3 ⟨0, 0, 0, []⟩ :=
  userResize_success terminalA 2 3 ⟨0, 0, 0, []⟩ (by decide)

/-- Claim C7: `UserResize` returns the no-op status iff the requested size equals
the current viewport dimensions (changing nothing), and on allocation or reflow
failure returns the failure status leaving all state exactly as before. -/
theorem userResize_noop_and_failure (t : Terminal) (newW newH : Int) (allocOk : Bool)
    (reflow : Option ReflowOut) : ResizeNoopFailureSpec t newW newH allocOk reflow := by
  unfold ResizeNoopFailureSpec Terminal.userResize
  by_cases hsame : newW = t.viewportWidth ∧ newH = t.viewportHeight
  · simp [hsame]
  · cases allocOk with
    | false => simp [hsame]
    | true =>
      cases reflow with
      | none => simp [hsame]
      | some r => simp [hsame]

/-- Claim C7, witness: a failing allocation on a changed size. -/
theorem userResize_noop_and_failure_witness :
    ResizeNoopFailureSpec terminalA 2 3 false none :=
  userResize_noop_and_failure terminalA 2 3 false none

/-- Claim C8, counterexample: on a freshly created 80x24 terminal with 5 scrollback
rows, `_NotifyScrollEvent` passes 24 (the mutable viewport bottom-exclusive row)
as third argument, not the total buffer height 29. -/
theorem notifyScroll_third_arg_not_total_height :
    (Terminal.notifyScrollArgs terminalC).2.2 ≠
      Terminal.specTotalBufferHeight terminalC := by
  decide

/-- Claim C8 as amended: the third argument of every scroll notification is
`GetBufferHeight()`, the mutable viewport bottom-exclusive row (top + height); it
equals viewport height plus scrollback capacity exactly when the viewport top has
reached the scrollback capacity. -/
theorem notifyScroll_third_arg_is_viewport_bottom (t : Terminal) :
    (Terminal.notifyScrollArgs t).2.2 = t.viewportTop + t.viewportHeight ∧
    ((Terminal.notifyScrollArgs t).2.2 = Terminal.specTotalBufferHeight t ↔
      t.viewportTop = t.scrollbackLines) := by
  have h3 : (Terminal.notifyScrollArgs t).2.2 = t.viewportTop + t.viewportHeight := rfl
  refine ⟨h3, ?_⟩
  rw [h3]
  unfold Terminal.specTotalBufferHeight
  omega

/-- Claim C8 as amended, witness. -/
theorem notifyScroll_third_arg_is_viewport_bottom_witness :
    (Terminal.notifyScrollArgs terminalC).2.2 =
      terminalC.viewportTop + terminalC.viewportHeight ∧
    ((Terminal.notifyScrollArgs terminalC).2.2 =
        Terminal.specTotalBufferHeight terminalC ↔
      terminalC.viewportTop = terminalC.scrollbackLines) :=
  notifyScroll_third_arg_is_viewport_bottom terminalC

/-- Claim C9: the successful `UserResize` path mutates the shared viewport, buffer
and scroll-offset fields without ever holding the exclusive writer lock, unlike
`Write` and `TrySnapOnInput`, whose mutations all happen under it. -/
theorem userResize_mutates_without_lock :
    mutationsUnderExclusiveLock userResizeSuccessAccessTrace = false ∧
    mutationsUnderExclusiveLock writeAccessTrace = true ∧
    mutationsUnderExclusiveLock (trySnapOnInputAccessTrace true) = true := by
  decide

/-- Claim C10: `GetScrollOffset` returns the visible viewport top
`max 0 (mutableViewportTop - scrollOffset)`; at the live tail it returns the
scrollback length, and it is not the raw scroll-offset field. -/
theorem getScrollOffset_visible_top (t : Terminal) :
    Terminal.getScrollOffset t = max 0 (t.viewportTop - t.scrollOffset) ∧
    (0 ≤ t.viewportTop → t.scrollOffset = 0 →
      Terminal.getScrollOffset t = Terminal.scrollbackLength t) ∧
    ¬ ∀ s : Terminal, Terminal.getScrollOffset s = s.scrollOffset := by
  refine ⟨rfl, ?_, ?_⟩
  · intro h1 h2
    simp only [Terminal.getScrollOffset, Terminal.visibleStartIndex,
      Terminal.scrollbackLength, Terminal.viewStartIndex]
    omega
  · intro hall
    exact absurd (hall terminalD) (by decide)

/-- Claim C10, witness: a terminal with five rows of scrollback at the live tail. -/
theorem getScrollOffset_visible_top_witness :
    Terminal.getScrollOffset terminalD =
      max 0 (terminalD.viewportTop - terminalD.scrollOffset) ∧
    Terminal.getScrollOffset terminalD = Terminal.scrollbackLength terminalD :=
  ⟨(getScrollOffset_visible_top terminalD).1,
    (getScrollOffset_visible_top terminalD).2.1 (by decide) (by decide)⟩
